import Mathlib

/-!
Verification of the avr-docs-mcp server: a shallow embedding of the
Wiki.JS content adapter (`wikiService.ts`) and of the MCP dispatch layer
(`index.ts`), with theorems about pagination, normalization, the
id-vs-path classification, HTTP session handling and startup behaviour.
-/

set_option autoImplicit false

namespace AvrDocs

/-! ## JavaScript primitives used by the source -/

/-- JavaScript truthiness of an optional string (`undefined` and `""` are falsy). -/
def jsTruthy : Option String → Bool
  | none => false
  | some s => s != ""

/-- Index normalization of `Array.prototype.slice`: a negative index counts
from the end (clamped below by 0), a non-negative one is clamped above by the
length.  The same rule applies to the start and the end argument. -/
def jsSliceIndex (len : Nat) (i : Int) : Nat :=
  (if i < 0 then max ((len : Int) + i) 0 else min i (len : Int)).toNat

/-- `Array.prototype.slice(start, stop)` on a list. -/
def jsSlice {α : Type} (l : List α) (start stop : Int) : List α :=
  (l.drop (jsSliceIndex l.length start)).take
    (jsSliceIndex l.length stop - jsSliceIndex l.length start)

/-! ## Canonical document model (`WikiPage` and result shapes) -/

/-- The `author` field of a `WikiPage`. -/
structure WikiAuthor where
  id : String
  name : String
  email : String
deriving Repr, DecidableEq

/-- The canonical document model (`WikiPage` interface of `wikiService.ts`). -/
structure WikiPage where
  id : String
  title : String
  description : String
  path : String
  locale : String
  content : String
  createdAt : String
  updatedAt : String
  publishedAt : Option String
  author : WikiAuthor
  tags : List String
deriving Repr, DecidableEq

/-- Result of `searchPages` (`WikiSearchResult` interface). -/
structure WikiSearchResult where
  pages : List WikiPage
  total : Int
  page : Int
  limit : Int
deriving Repr, DecidableEq

/-- Result of `listPages` (`WikiPageListResult` interface). -/
structure WikiPageListResult where
  pages : List WikiPage
  total : Int
  page : Int
  limit : Int
deriving Repr, DecidableEq

/-! ## Raw upstream response shapes -/

/-- One raw record of the upstream search response (`pages.search.results`). -/
structure RawSearchResult where
  id : String
  title : String
  description : Option String
  path : String
  locale : String
deriving Repr, DecidableEq

/-- The raw upstream search response (`pages.search`). -/
structure SearchResponse where
  results : List RawSearchResult
  totalHits : Int
deriving Repr, DecidableEq

/-- A raw upstream tag object (carries a `title`). -/
structure RawTag where
  id : Int
  title : String
deriving Repr, DecidableEq

/-- The raw `tags` field of an upstream record: either an array of tag
objects or some non-array value (`Array.isArray` fails). -/
inductive TagsField where
  | arr (ts : List RawTag)
  | notArray
deriving Repr, DecidableEq

/-- One raw record of the upstream listing response (`pages.list`). -/
structure RawListPage where
  id : Int
  title : String
  description : Option String
  path : String
  locale : String
  isPublished : Bool
  createdAt : String
  updatedAt : String
  tags : TagsField
deriving Repr, DecidableEq

/-- One raw record of the upstream single-page response
(`pages.single` / `pages.singleByPath`). -/
structure RawSinglePage where
  id : Int
  title : String
  description : Option String
  path : String
  locale : String
  content : String
  isPublished : Bool
  createdAt : String
  updatedAt : String
  tags : TagsField
  authorId : Int
  authorName : Option String
  authorEmail : Option String
deriving Repr, DecidableEq

/-- JavaScript `v || d` on an optional string: `undefined` and `""` fall back
to the default. -/
def jsOrDefault (v : Option String) (d : String) : String :=
  match v with
  | none => d
  | some s => if s = "" then d else s

/-- `Array.isArray(tags) ? tags.map(tag => tag.title) : []`. -/
def extractTags : TagsField → List String
  | .arr ts => ts.map (fun t => t.title)
  | .notArray => []

/-! ## The content adapter (`WikiService`)

Upstream GraphQL calls are modelled by passing their outcome (an
`Except String <response>`) as an argument; `executeQuery`'s wrapping of
GraphQL error lists into thrown errors is absorbed into that argument.
The current wall-clock timestamp used by `searchPages` is the `now`
argument. -/

/-- Normalization of one raw search record inside `searchPages`. -/
def normalizeSearchResult (now : String) (r : RawSearchResult) : WikiPage :=
  { id := r.id
    title := r.title
    description := jsOrDefault r.description ""
    path := r.path
    locale := r.locale
    content := ""
    createdAt := now
    updatedAt := now
    publishedAt := some now
    author := { id := "0", name := "Unknown", email := "" }
    tags := [] }

/-- `WikiService.searchPages`: one upstream search call, then a simulated
pagination slice and per-record normalization; errors are wrapped with the
`Wiki.JS search failed: ` prefix and re-thrown. -/
def searchPages (now : String) (upstream : Except String SearchResponse)
    (query : String) (page limit : Int) : Except String WikiSearchResult :=
  match upstream with
  | .error e => .error ("Wiki.JS search failed: " ++ e)
  | .ok searchData =>
    let startIndex := (page - 1) * limit
    let endIndex := startIndex + limit
    let paginatedResults := jsSlice searchData.results startIndex endIndex
    .ok { pages := paginatedResults.map (normalizeSearchResult now)
          total := searchData.totalHits
          page := page
          limit := limit }

/-- Normalization of one raw listing record inside `listPages`. -/
def normalizeListPage (r : RawListPage) : WikiPage :=
  { id := toString r.id
    title := r.title
    description := jsOrDefault r.description ""
    path := r.path
    locale := r.locale
    content := ""
    createdAt := r.createdAt
    updatedAt := r.updatedAt
    publishedAt := if r.isPublished then some r.updatedAt else none
    author := { id := "0", name := "Unknown", email := "" }
    tags := extractTags r.tags }

/-- `WikiService.listPages`: one upstream listing call, then the same
client-side slice; `total` is the full listing length; errors are wrapped
with the `Wiki.JS page listing failed: ` prefix. -/
def listPages (upstream : Except String (List RawListPage))
    (page limit : Int) : Except String WikiPageListResult :=
  match upstream with
  | .error e => .error ("Wiki.JS page listing failed: " ++ e)
  | .ok allPages =>
    let startIndex := (page - 1) * limit
    let endIndex := startIndex + limit
    let paginatedPages := jsSlice allPages startIndex endIndex
    .ok { pages := paginatedPages.map normalizeListPage
          total := (allPages.length : Int)
          page := page
          limit := limit }

/-! ## `getPage`: id-vs-path classification and single-page retrieval -/

/-- The two GraphQL query variants `getPage` can issue. -/
inductive GetQuery where
  | byId (id : Int)
  | byPath (path : String) (locale : String)
deriving Repr, DecidableEq

/-- `/^\d+$/.test(pageId)`: the whole identifier is one or more decimal
digits (stated over the identifier's character sequence). -/
def isNumericId (s : String) : Bool :=
  !(s.data.isEmpty) && s.data.all (fun c => c.isDigit)

/-- `parseInt(pageId)` on a pure-decimal-digit string: its decimal value. -/
def parseIntDigits (s : String) : Int :=
  ((s.data.foldl (fun n c => n * 10 + (c.toNat - 48)) 0 : Nat) : Int)

/-- Which upstream query `getPage` issues for a given identifier: the by-id
variant with the parsed integer when the identifier is pure digits, the
by-path variant with the fixed locale `"en"` otherwise. -/
def getPageQuery (pageId : String) : GetQuery :=
  if isNumericId pageId then .byId (parseIntDigits pageId)
  else .byPath pageId "en"

/-- Normalization of the raw single-page record inside `getPage`. -/
def normalizeSinglePage (r : RawSinglePage) : WikiPage :=
  { id := toString r.id
    title := r.title
    description := jsOrDefault r.description ""
    path := r.path
    locale := r.locale
    content := r.content
    createdAt := r.createdAt
    updatedAt := r.updatedAt
    publishedAt := if r.isPublished then some r.updatedAt else none
    author := { id := toString r.authorId
                name := jsOrDefault r.authorName "Unknown"
                email := jsOrDefault r.authorEmail "" }
    tags := extractTags r.tags }

/-- `WikiService.getPage`: classifies the identifier, issues the matching
query variant (`upstream` maps the issued query to its outcome; `.ok none`
models a `null` record), and wraps every failure with the
`Wiki.JS page retrieval failed: ` prefix. -/
def getPage (upstream : GetQuery → Except String (Option RawSinglePage))
    (pageId : String) : Except String WikiPage :=
  match upstream (getPageQuery pageId) with
  | .error e => .error ("Wiki.JS page retrieval failed: " ++ e)
  | .ok none => .error ("Wiki.JS page retrieval failed: " ++ ("Page not found: " ++ pageId))
  | .ok (some page) => .ok (normalizeSinglePage page)

/-- `WikiService.testConnection`: issues the system-info query and converts
any failure into `false`, success into `true`. -/
def testConnection (upstream : Except String Unit) : Bool :=
  match upstream with
  | .ok _ => true
  | .error _ => false

/-! ## Tool handlers (`index.ts` registrations)

Each handler model returns the argument tuple it passes to the adapter;
an omitted optional argument is `none`. -/

/-- Arguments the `search_wiki_pages` handler passes to
`wikiService.searchPages`: `(query, page, Math.min(limit, 50))` with
defaults `page = 1`, `limit = 10`. -/
def searchWikiPagesArgs (query : String) (page limit : Option Int) :
    String × Int × Int :=
  (query, page.getD 1, min (limit.getD 10) 50)

/-- Arguments the `list_wiki_pages` handler passes to
`wikiService.listPages`: `(page, Math.min(limit, 50))` with defaults
`page = 1`, `limit = 20`. -/
def listWikiPagesArgs (page limit : Option Int) : Int × Int :=
  (page.getD 1, min (limit.getD 20) 50)

/-! ## HTTP mode: session-to-transport mapping (`app.post('/mcp')`) -/

/-- The `transports` object: session id keys mapped to transport instances
(transports are identified by a `Nat`). -/
abbrev Transports : Type := List (String × Nat)

/-- `transports[sessionId]`. -/
def lookupTransport (st : Transports) (sid : String) : Option Nat :=
  (List.find? (fun p => p.1 == sid) st).map (fun p => p.2)

/-- `transports[sessionId] = transport` (overwrite or append). -/
def insertTransport (st : Transports) (sid : String) (tid : Nat) : Transports :=
  if (lookupTransport st sid).isSome then
    List.map (fun p => if p.1 == sid then (sid, tid) else p) st
  else
    st ++ [(sid, tid)]

/-- `delete transports[sessionId]`. -/
def eraseTransport (st : Transports) (sid : String) : Transports :=
  List.filter (fun p => p.1 != sid) st

/-- The structured JSON-RPC error body for a rejected `/mcp` POST. -/
structure RpcErrorResponse where
  jsonrpc : String
  code : Int
  message : String
  id : Option Nat
deriving Repr, DecidableEq

/-- The fixed rejection body sent with status 400. -/
def badRequestBody : RpcErrorResponse :=
  { jsonrpc := "2.0"
    code := -32000
    message := "Bad Request: No valid session ID provided"
    id := none }

/-- Outcome of one `POST /mcp` request. -/
inductive PostOutcome where
  | handled (tid : Nat)
  | initialized (tid : Nat) (sid : String)
  | rejected (status : Nat) (body : RpcErrorResponse)
deriving Repr, DecidableEq

/-- The `app.post('/mcp')` handler.  `header` is the `mcp-session-id`
header, `method` the JSON-RPC method of the body; `newTid` models the
transport instance a `new StreamableHTTPServerTransport` would produce and
`genSid` the session id `randomUUID()` would generate for it. -/
def postMcp (st : Transports) (header : Option String) (method : String)
    (newTid : Nat) (genSid : String) : PostOutcome × Transports :=
  if jsTruthy header then
    match lookupTransport st (header.getD "") with
    | some tid => (.handled tid, st)
    | none => (.rejected 400 badRequestBody, st)
  else if method == "initialize" then
    (.initialized newTid genSid, insertTransport st genSid newTid)
  else
    (.rejected 400 badRequestBody, st)

/-- `transport.onclose`: remove the session entry when the transport has a
session id. -/
def transportOnClose (st : Transports) (sessionId : Option String) : Transports :=
  if jsTruthy sessionId then eraseTransport st (sessionId.getD "") else st

/-- Outcome of one `GET /mcp` or `DELETE /mcp` request. -/
inductive SessionOutcome where
  | handled (tid : Nat)
  | rejected (status : Nat) (text : String)
deriving Repr, DecidableEq

/-- `handleSessionRequest` (shared by `GET /mcp` and `DELETE /mcp`). -/
def handleSessionRequest (st : Transports) (header : Option String) :
    SessionOutcome × Transports :=
  if jsTruthy header then
    match lookupTransport st (header.getD "") with
    | some tid => (.handled tid, st)
    | none => (.rejected 400 "Invalid or missing session ID", st)
  else
    (.rejected 400 "Invalid or missing session ID", st)

/-! ## Startup (`index.ts` top level and `WikiService` constructor) -/

/-- The configuration the `WikiService` constructor builds. -/
structure WikiConfig where
  baseUrl : String
  apiKey : String
deriving Repr, DecidableEq

/-- `baseUrl.replace(/\/$/, '')`: drop one trailing slash. -/
def stripTrailingSlash (s : String) : String :=
  if s.endsWith "/" then s.dropRight 1 else s

/-- The `WikiService` constructor: throws when `WIKI_JS_BASE_URL` or
`WIKI_JS_API_KEY` is absent (or empty, which is falsy in JavaScript). -/
def wikiServiceCtor (baseUrl apiKey : Option String) : Except String WikiConfig :=
  if jsTruthy baseUrl = false then
    .error "WIKI_JS_BASE_URL environment variable is required"
  else if jsTruthy apiKey = false then
    .error "WIKI_JS_API_KEY environment variable is required"
  else
    .ok { baseUrl := stripTrailingSlash (baseUrl.getD "")
          apiKey := apiKey.getD "" }

/-- The three tools `index.ts` registers after the service is constructed. -/
def registeredTools : List String :=
  ["search_wiki_pages", "list_wiki_pages", "get_wiki_page"]

/-- Result of process startup. -/
inductive StartupResult where
  | exited (code : Nat)
  | serving (tools : List String)
deriving Repr, DecidableEq

/-- Top-level startup of `index.ts`: construct the `WikiService` inside a
`try`/`catch` whose handler calls `process.exit(1)`; only on success are the
tools registered and the server started. -/
def startup (baseUrl apiKey : Option String) : StartupResult :=
  match wikiServiceCtor baseUrl apiKey with
  | .error _ => .exited 1
  | .ok _ => .serving registeredTools

/-! ## Concrete upstream fixtures used to instantiate the theorems -/

/-- A raw search record with a description. -/
def exSearchA : RawSearchResult :=
  { id := "1", title := "A", description := some "dA", path := "a", locale := "en" }

/-- A raw search record without a description. -/
def exSearchB : RawSearchResult :=
  { id := "2", title := "B", description := none, path := "b", locale := "en" }

/-- A raw search record with an empty description. -/
def exSearchC : RawSearchResult :=
  { id := "3", title := "C", description := some "", path := "c", locale := "en" }

/-- A search response with three results. -/
def exSearchResponse : SearchResponse :=
  { results := [exSearchA, exSearchB, exSearchC], totalHits := 3 }

/-- A raw tag object. -/
def exTagX : RawTag := { id := 1, title := "x" }

/-- A raw listing record whose tags are a tag-object array. -/
def exListA : RawListPage :=
  { id := 1, title := "A", description := some "dA", path := "a", locale := "en"
    isPublished := true, createdAt := "c1", updatedAt := "u1", tags := .arr [exTagX] }

/-- A raw listing record whose tags are not an array. -/
def exListB : RawListPage :=
  { id := 2, title := "B", description := none, path := "b", locale := "en"
    isPublished := false, createdAt := "c2", updatedAt := "u2", tags := .notArray }

/-- A raw listing record with an empty tag array. -/
def exListC : RawListPage :=
  { id := 3, title := "C", description := some "", path := "c", locale := "en"
    isPublished := true, createdAt := "c3", updatedAt := "u3", tags := .arr [] }

/-- A three-record upstream listing. -/
def exListing : List RawListPage := [exListA, exListB, exListC]

/-- A raw single-page record. -/
def exSingle : RawSinglePage :=
  { id := 42, title := "S", description := some "dS", path := "s", locale := "en"
    content := "full body", isPublished := true, createdAt := "c", updatedAt := "u"
    tags := .arr [exTagX], authorId := 9, authorName := some "Ada", authorEmail := none }

/-! ## Pagination lemmas -/

/-- Length of a slice with a non-negative start and width. -/
theorem length_jsSlice {α : Type} (l : List α) (s lim : Int)
    (hs : 0 ≤ s) (hlim : 0 ≤ lim) :
    ((jsSlice l s (s + lim)).length : Int) =
      min lim (max 0 ((l.length : Int) - s)) := by
  simp only [jsSlice, jsSliceIndex, List.length_take, List.length_drop]
  rw [if_neg (by omega), if_neg (by omega)]
  omega

/-- A slice from a negative start up to 0 is empty. -/
theorem jsSlice_neg_start {α : Type} (l : List α) (lim : Int) (h : 0 < lim) :
    jsSlice l (-lim) 0 = [] := by
  have hstop : jsSliceIndex l.length 0 = 0 := by
    simp only [jsSliceIndex]
    rw [if_neg (by omega)]
    omega
  simp only [jsSlice, hstop]
  simp

/-- C1: for `page ≥ 1` and `limit ≥ 1`, `searchPages` and `listPages` return
the slice `[(page-1)*limit, (page-1)*limit + limit)` of the full upstream
result sequence, whose length is `min(limit, max(0, totalMatches -
(page-1)*limit))`; the returned `total` is the upstream total (`totalHits`
for search, the full listing length for list), and the sequence length is at
most `limit`. -/
theorem searchPages_listPages_pagination
    (now q : String) (d : SearchResponse) (rs : List RawListPage)
    (page limit : Int) (hp : 1 ≤ page) (hl : 1 ≤ limit) :
    ∃ rS rL,
      searchPages now (.ok d) q page limit = .ok rS ∧
      listPages (.ok rs) page limit = .ok rL ∧
      rS.pages = (jsSlice d.results ((page - 1) * limit)
        ((page - 1) * limit + limit)).map (normalizeSearchResult now) ∧
      rL.pages = (jsSlice rs ((page - 1) * limit)
        ((page - 1) * limit + limit)).map normalizeListPage ∧
      (rS.pages.length : Int) =
        min limit (max 0 ((d.results.length : Int) - (page - 1) * limit)) ∧
      (rL.pages.length : Int) =
        min limit (max 0 ((rs.length : Int) - (page - 1) * limit)) ∧
      rS.total = d.totalHits ∧
      rL.total = (rs.length : Int) ∧
      (rS.pages.length : Int) ≤ limit ∧
      (rL.pages.length : Int) ≤ limit := by
  have hs : 0 ≤ (page - 1) * limit := mul_nonneg (by omega) (by omega)
  have hS := length_jsSlice d.results ((page - 1) * limit) limit hs (by omega)
  have hL := length_jsSlice rs ((page - 1) * limit) limit hs (by omega)
  refine ⟨_, _, rfl, rfl, rfl, rfl, ?_, ?_, rfl, rfl, ?_, ?_⟩
  · rw [List.length_map]
    exact hS
  · rw [List.length_map]
    exact hL
  · rw [List.length_map, hS]
    exact min_le_left _ _
  · rw [List.length_map, hL]
    exact min_le_left _ _

/-- Instantiation of `searchPages_listPages_pagination` at page 2, limit 2
over three-element upstream results. -/
theorem searchPages_listPages_pagination_witness :
    ∃ rS rL,
      searchPages "T" (.ok exSearchResponse) "q" 2 2 = .ok rS ∧
      listPages (.ok exListing) 2 2 = .ok rL ∧
      rS.pages = (jsSlice exSearchResponse.results ((2 - 1) * 2)
        ((2 - 1) * 2 + 2)).map (normalizeSearchResult "T") ∧
      rL.pages = (jsSlice exListing ((2 - 1) * 2)
        ((2 - 1) * 2 + 2)).map normalizeListPage ∧
      (rS.pages.length : Int) =
        min 2 (max 0 ((exSearchResponse.results.length : Int) - (2 - 1) * 2)) ∧
      (rL.pages.length : Int) =
        min 2 (max 0 ((exListing.length : Int) - (2 - 1) * 2)) ∧
      rS.total = exSearchResponse.totalHits ∧
      rL.total = (exListing.length : Int) ∧
      (rS.pages.length : Int) ≤ 2 ∧
      (rL.pages.length : Int) ≤ 2 :=
  searchPages_listPages_pagination "T" "q" exSearchResponse exListing 2 2
    (by decide) (by decide)

/-- C10: neither adapter operation validates `page ≥ 1`; at `page = 0` the
slice indices become `-limit` and `0`, so the returned page sequence is empty
while `total`, `page` and `limit` still report the upstream count and the
passed arguments. -/
theorem pageZero_empty_slice
    (now q : String) (d : SearchResponse) (rs : List RawListPage)
    (limit : Int) (hl : 1 ≤ limit) :
    searchPages now (.ok d) q 0 limit =
      .ok { pages := [], total := d.totalHits, page := 0, limit := limit } ∧
    listPages (.ok rs) 0 limit =
      .ok { pages := [], total := (rs.length : Int), page := 0, limit := limit } := by
  have h1 : ((0 : Int) - 1) * limit = -limit := by ring
  have h2 : ((0 : Int) - 1) * limit + limit = 0 := by
    rw [h1]
    ring
  have e1 : searchPages now (.ok d) q 0 limit =
      .ok { pages := (jsSlice d.results (((0 : Int) - 1) * limit)
              (((0 : Int) - 1) * limit + limit)).map (normalizeSearchResult now)
            total := d.totalHits, page := 0, limit := limit } := rfl
  have e2 : listPages (.ok rs) 0 limit =
      .ok { pages := (jsSlice rs (((0 : Int) - 1) * limit)
              (((0 : Int) - 1) * limit + limit)).map normalizeListPage
            total := (rs.length : Int), page := 0, limit := limit } := rfl
  constructor
  · rw [e1, h2, h1, jsSlice_neg_start d.results limit (by omega)]
    rfl
  · rw [e2, h2, h1, jsSlice_neg_start rs limit (by omega)]
    rfl

/-- Instantiation of `pageZero_empty_slice` at `limit = 10`. -/
theorem pageZero_empty_slice_witness :
    searchPages "T" (.ok exSearchResponse) "q" 0 10 =
      .ok { pages := [], total := exSearchResponse.totalHits, page := 0, limit := 10 } ∧
    listPages (.ok exListing) 0 10 =
      .ok { pages := [], total := (exListing.length : Int), page := 0, limit := 10 } :=
  pageZero_empty_slice "T" "q" exSearchResponse exListing 10 (by decide)

/-! ## Tool-handler argument validation -/

/-- C2: on both tools a requested limit above 50 is clamped to exactly 50
before reaching the adapter (`effectiveLimit = min(requestedLimit, 50)`);
omitted arguments default to `page = 1` and `limit = 10` (search) resp.
`limit = 20` (list). -/
theorem toolHandlers_limit_clamp (q : String) (page : Option Int)
    (limit : Int) (h : 50 < limit) :
    (searchWikiPagesArgs q page (some limit)).2.2 = 50 ∧
    (listWikiPagesArgs page (some limit)).2 = 50 ∧
    searchWikiPagesArgs q none none = (q, 1, 10) ∧
    listWikiPagesArgs none none = (1, 20) := by
  refine ⟨?_, ?_, rfl, rfl⟩
  · simp only [searchWikiPagesArgs, Option.getD_some]
    omega
  · simp only [listWikiPagesArgs, Option.getD_some]
    omega

/-- Instantiation of `toolHandlers_limit_clamp` at a requested limit of 51. -/
theorem toolHandlers_limit_clamp_witness :
    (searchWikiPagesArgs "q" none (some 51)).2.2 = 50 ∧
    (listWikiPagesArgs none (some 51)).2 = 50 ∧
    searchWikiPagesArgs "q" none none = ("q", 1, 10) ∧
    listWikiPagesArgs none none = (1, 20) :=
  toolHandlers_limit_clamp "q" none 51 (by decide)

/-! ## Content-population policy -/

/-- C3: every document produced by `searchPages` or `listPages` has
`content = ""`; the document produced by `getPage` carries the full `content`
field of the upstream record. -/
theorem content_population_policy
    (now q : String) (upstreamS : Except String SearchResponse)
    (upstreamL : Except String (List RawListPage)) (page limit : Int)
    (u : GetQuery → Except String (Option RawSinglePage))
    (pid : String) (raw : RawSinglePage)
    (hu : u (getPageQuery pid) = .ok (some raw)) :
    (∀ rS, searchPages now upstreamS q page limit = .ok rS →
        ∀ p ∈ rS.pages, p.content = "") ∧
    (∀ rL, listPages upstreamL page limit = .ok rL →
        ∀ p ∈ rL.pages, p.content = "") ∧
    getPage u pid = .ok (normalizeSinglePage raw) ∧
    (normalizeSinglePage raw).content = raw.content := by
  refine ⟨?_, ?_, ?_, rfl⟩
  · intro rS hS p hp
    cases upstreamS with
    | error e => simp [searchPages] at hS
    | ok d =>
      simp only [searchPages, Except.ok.injEq] at hS
      rw [← hS] at hp
      rcases List.mem_map.mp hp with ⟨a, _, ha⟩
      rw [← ha]
      rfl
  · intro rL hL p hp
    cases upstreamL with
    | error e => simp [listPages] at hL
    | ok allPages =>
      simp only [listPages, Except.ok.injEq] at hL
      rw [← hL] at hp
      rcases List.mem_map.mp hp with ⟨a, _, ha⟩
      rw [← ha]
      rfl
  · unfold getPage
    rw [hu]

/-- Instantiation of `content_population_policy` on the three-record
fixtures and a single-page fetch of `"42"`. -/
theorem content_population_policy_witness :
    (∀ rS, searchPages "T" (.ok exSearchResponse) "q" 1 10 = .ok rS →
        ∀ p ∈ rS.pages, p.content = "") ∧
    (∀ rL, listPages (.ok exListing) 1 10 = .ok rL →
        ∀ p ∈ rL.pages, p.content = "") ∧
    getPage (fun _ => .ok (some exSingle)) "42" = .ok (normalizeSinglePage exSingle) ∧
    (normalizeSinglePage exSingle).content = exSingle.content :=
  content_population_policy "T" "q" (.ok exSearchResponse) (.ok exListing) 1 10
    (fun _ => .ok (some exSingle)) "42" exSingle rfl

/-! ## Identifier classification of `getPage` -/

/-- C4: `getPage` classifies its identifier by `^\d+$`: a pure-decimal-digit
identifier is sent to the by-id variant with the identifier parsed as an
integer, any other identifier to the by-path variant with the fixed locale
`"en"`; the issued query is the only upstream call `getPage` depends on, and
in particular `"42"` goes by id and `"my-page"` goes by path. -/
theorem getPage_identifier_classification (s : String)
    (u v : GetQuery → Except String (Option RawSinglePage))
    (huv : u (getPageQuery s) = v (getPageQuery s)) :
    ((s.data ≠ [] ∧ ∀ c ∈ s.data, c.isDigit) →
      getPageQuery s = .byId (parseIntDigits s)) ∧
    ((s.data = [] ∨ ∃ c ∈ s.data, ¬ c.isDigit) →
      getPageQuery s = .byPath s "en") ∧
    getPage u s = getPage v s ∧
    getPageQuery "42" = .byId 42 ∧
    getPageQuery "my-page" = .byPath "my-page" "en" := by
  refine ⟨?_, ?_, ?_, by decide, by decide⟩
  · intro h
    have hb : isNumericId s = true := by
      simp only [isNumericId, Bool.and_eq_true, Bool.not_eq_true', List.isEmpty_iff,
        List.all_eq_true]
      exact ⟨by simpa using h.1, h.2⟩
    simp [getPageQuery, hb]
  · intro h
    have hb : isNumericId s = false := by
      simp only [isNumericId, Bool.and_eq_false_iff, Bool.not_eq_false', List.isEmpty_iff,
        List.all_eq_false]
      rcases h with h | ⟨c, hc, hcd⟩
      · exact Or.inl (by simpa using h)
      · exact Or.inr ⟨c, hc, by simpa using hcd⟩
    simp [getPageQuery, hb]
  · unfold getPage
    rw [huv]

/-- Instantiation of `getPage_identifier_classification` at the numeric
identifier `"42"` and the non-numeric identifier `"7x"`. -/
theorem getPage_identifier_classification_witness :
    getPageQuery "42" = .byId (parseIntDigits "42") ∧
    getPageQuery "7x" = .byPath "7x" "en" ∧
    getPage (fun _ => .ok (some exSingle)) "42" =
      getPage (fun _ => .ok (some exSingle)) "42" ∧
    getPageQuery "42" = .byId 42 ∧
    getPageQuery "my-page" = .byPath "my-page" "en" := by
  have h := getPage_identifier_classification "42"
    (fun _ => .ok (some exSingle)) (fun _ => .ok (some exSingle)) rfl
  have h2 := getPage_identifier_classification "7x"
    (fun _ => .ok (some exSingle)) (fun _ => .ok (some exSingle)) rfl
  refine ⟨h.1 (by decide), h2.2.1 ?_, h.2.2.1, h.2.2.2.1, h.2.2.2.2⟩
  exact Or.inr ⟨Char.ofNat 120, by decide, by decide⟩

/-! ## Session-map lemmas -/

/-- Appending a fresh entry makes it the one `find?` returns for its key. -/
theorem find?_append_fresh {sid : String} {tid : Nat} (st : Transports)
    (h : List.find? (fun p => p.1 == sid) st = none) :
    List.find? (fun p => p.1 == sid) (st ++ [(sid, tid)]) = some (sid, tid) := by
  rw [List.find?_append, h]
  simp

/-- After erasing a key, looking it up fails. -/
theorem lookupTransport_erase (st : Transports) (sid : String) :
    lookupTransport (eraseTransport st sid) sid = none := by
  unfold lookupTransport eraseTransport
  induction st with
  | nil => rfl
  | cons a l ih =>
    cases ha : (a.1 == sid) with
    | true =>
      rw [List.filter_cons_of_neg (by simp [bne, ha])]
      exact ih
    | false =>
      rw [List.filter_cons_of_pos (by simp [bne, ha]), List.find?_cons_of_neg _ (by simp [ha])]
      exact ih

/-! ## HTTP-mode protocol errors (C5) -/

/-- C5: a `POST /mcp` whose session id is missing or unknown, on a
non-initialize method, is rejected with status 400 and the structured
JSON-RPC body carrying code `-32000` and null id, and the session map is
unchanged; `GET /mcp` and `DELETE /mcp` with a missing or unknown session id
are likewise rejected without creating a session. -/
theorem mcp_reject_invalid_session (st : Transports) (header : Option String)
    (method : String) (newTid : Nat) (genSid : String)
    (hmethod : method ≠ "initialize")
    (hsess : ∀ s, header = some s → lookupTransport st s = none) :
    postMcp st header method newTid genSid = (.rejected 400 badRequestBody, st) ∧
    badRequestBody.code = -32000 ∧
    badRequestBody.id = none ∧
    (∀ h2 : Option String, (∀ s, h2 = some s → lookupTransport st s = none) →
      handleSessionRequest st h2 =
        (.rejected 400 "Invalid or missing session ID", st)) := by
  have hbm : (method == "initialize") = false := by simpa using hmethod
  refine ⟨?_, rfl, rfl, ?_⟩
  · cases header with
    | none => simp [postMcp, jsTruthy, hbm]
    | some s =>
      have hl := hsess s rfl
      by_cases he : s = ""
      · subst he
        simp [postMcp, jsTruthy, hbm]
      · simp [postMcp, jsTruthy, he, hl, hbm]
  · intro h2 hh2
    cases h2 with
    | none => simp [handleSessionRequest, jsTruthy]
    | some s =>
      have hl := hh2 s rfl
      by_cases he : s = ""
      · subst he
        simp [handleSessionRequest, jsTruthy]
      · simp [handleSessionRequest, jsTruthy, he, hl]

/-- Instantiation of `mcp_reject_invalid_session` on an empty session map
with an unknown session id and method `"tools/list"`. -/
theorem mcp_reject_invalid_session_witness :
    postMcp ([] : Transports) (some "x") "tools/list" 0 "g" =
      (.rejected 400 badRequestBody, []) ∧
    badRequestBody.code = -32000 ∧
    badRequestBody.id = none ∧
    handleSessionRequest ([] : Transports) none =
      (.rejected 400 "Invalid or missing session ID", []) := by
  have h := mcp_reject_invalid_session ([] : Transports) (some "x") "tools/list" 0 "g"
    (by decide) (fun s hs => rfl)
  exact ⟨h.1, h.2.1, h.2.2.1, h.2.2.2 none (fun s hs => nomatch hs)⟩

/-! ## HTTP-mode session lifecycle (C6) -/

/-- C6: an initialize call with no prior session id creates a transport whose
generated identifier (fresh with respect to all live sessions, the contract
of `randomUUID`) is registered in the mapping; every subsequent call bearing
that identifier is routed to that same transport regardless of method; and
closing the transport removes its entry from the mapping. -/
theorem http_session_lifecycle (st : Transports) (newTid : Nat) (genSid : String)
    (hfresh : lookupTransport st genSid = none) (hne : genSid ≠ "") :
    (∀ p ∈ st, p.1 ≠ genSid) ∧
    postMcp st none "initialize" newTid genSid =
      (.initialized newTid genSid, insertTransport st genSid newTid) ∧
    lookupTransport (insertTransport st genSid newTid) genSid = some newTid ∧
    (∀ method newTid2 genSid2,
      postMcp (insertTransport st genSid newTid) (some genSid) method newTid2 genSid2 =
        (.handled newTid, insertTransport st genSid newTid)) ∧
    lookupTransport
      (transportOnClose (insertTransport st genSid newTid) (some genSid)) genSid
      = none := by
  have hf : List.find? (fun p => p.1 == genSid) st = none := by
    cases hx : List.find? (fun p => p.1 == genSid) st with
    | none => rfl
    | some p =>
      unfold lookupTransport at hfresh
      rw [hx] at hfresh
      cases hfresh
  have hins : insertTransport st genSid newTid = st ++ [(genSid, newTid)] := by
    simp [insertTransport, hfresh]
  have hlook : lookupTransport (st ++ [(genSid, newTid)]) genSid = some newTid := by
    unfold lookupTransport
    rw [find?_append_fresh st hf]
    rfl
  have ht : jsTruthy (some genSid) = true := by simp [jsTruthy, hne]
  refine ⟨?_, rfl, ?_, ?_, ?_⟩
  · intro p hp hcontra
    have hnone := List.find?_eq_none.mp hf p hp
    simp [hcontra] at hnone
  · rw [hins]
    exact hlook
  · intro method newTid2 genSid2
    rw [hins]
    simp [postMcp, ht, hlook]
  · rw [hins]
    simp only [transportOnClose, ht, if_true, Option.getD_some]
    exact lookupTransport_erase _ _

/-- Instantiation of `http_session_lifecycle` on a one-session map. -/
theorem http_session_lifecycle_witness :
    postMcp [("a", 7)] none "initialize" 1 "b" =
      (.initialized 1 "b", insertTransport [("a", 7)] "b" 1) ∧
    lookupTransport (insertTransport [("a", 7)] "b" 1) "b" = some 1 ∧
    postMcp (insertTransport [("a", 7)] "b" 1) (some "b") "tools/call" 2 "c" =
      (.handled 1, insertTransport [("a", 7)] "b" 1) ∧
    lookupTransport
      (transportOnClose (insertTransport [("a", 7)] "b" 1) (some "b")) "b" = none := by
  have h := http_session_lifecycle [("a", 7)] 1 "b" (by decide) (by decide)
  exact ⟨h.2.1, h.2.2.1, h.2.2.2.1 "tools/call" 2 "c", h.2.2.2.2⟩

/-! ## Error propagation policy (C7) -/

/-- C7: upstream failures in `searchPages`, `listPages` and `getPage` are
re-raised wrapped with their stable human-readable prefixes, never swallowed,
while `testConnection` returns `true` exactly when the introspection-style
query succeeds and converts every failure into `false`. -/
theorem adapter_error_policy (now q : String) (page limit : Int) (e : String)
    (pid : String) (u : GetQuery → Except String (Option RawSinglePage))
    (hu : u (getPageQuery pid) = .error e) (r : Except String Unit) :
    searchPages now (.error e) q page limit =
      .error ("Wiki.JS search failed: " ++ e) ∧
    listPages (.error e) page limit =
      .error ("Wiki.JS page listing failed: " ++ e) ∧
    getPage u pid = .error ("Wiki.JS page retrieval failed: " ++ e) ∧
    (∀ u2 : GetQuery → Except String (Option RawSinglePage),
      u2 (getPageQuery pid) = .ok none →
      getPage u2 pid =
        .error ("Wiki.JS page retrieval failed: " ++ ("Page not found: " ++ pid))) ∧
    (testConnection r = true ↔ r = .ok ()) := by
  refine ⟨rfl, rfl, ?_, ?_, ?_⟩
  · unfold getPage
    rw [hu]
  · intro u2 hu2
    unfold getPage
    rw [hu2]
  · cases r with
    | ok v =>
      cases v
      simp [testConnection]
    | error e2 => simp [testConnection]

/-- Instantiation of `adapter_error_policy` at a concrete upstream error. -/
theorem adapter_error_policy_witness :
    searchPages "T" (.error "boom") "q" 1 10 =
      .error ("Wiki.JS search failed: " ++ "boom") ∧
    listPages (.error "boom") 1 10 =
      .error ("Wiki.JS page listing failed: " ++ "boom") ∧
    getPage (fun _ => .error "boom") "42" =
      .error ("Wiki.JS page retrieval failed: " ++ "boom") ∧
    getPage (fun _ => .ok none) "42" =
      .error ("Wiki.JS page retrieval failed: " ++ ("Page not found: " ++ "42")) ∧
    (testConnection (.ok ()) = true ↔ (.ok () : Except String Unit) = .ok ()) := by
  have h := adapter_error_policy "T" "q" 1 10 "boom" "42"
    (fun _ => .error "boom") rfl (.ok ())
  exact ⟨h.1, h.2.1, h.2.2.1, h.2.2.2.1 (fun _ => .ok none) rfl, h.2.2.2.2⟩

/-! ## Tag extraction of `listPages` (C8) -/

/-- C8: `listPages` produces each document's tag set by taking every tag
object's `title`, substituting the empty set when the upstream `tags` field
is not an array, and it does not fail in either case: on any upstream listing
it returns the mapped slice. -/
theorem listPages_tags_extraction (rs : List RawListPage) (page limit : Int)
    (rec : RawListPage) (ts : List RawTag) :
    (rec.tags = .arr ts →
      (normalizeListPage rec).tags = ts.map (fun t => t.title)) ∧
    (rec.tags = .notArray → (normalizeListPage rec).tags = []) ∧
    ∃ r, listPages (.ok rs) page limit = .ok r ∧
      r.pages = (jsSlice rs ((page - 1) * limit)
        ((page - 1) * limit + limit)).map normalizeListPage := by
  refine ⟨?_, ?_, _, rfl, rfl⟩
  · intro h
    simp [normalizeListPage, extractTags, h]
  · intro h
    simp [normalizeListPage, extractTags, h]

/-- Instantiation of `listPages_tags_extraction` on records with a tag-object
array and a non-array tags field. -/
theorem listPages_tags_extraction_witness :
    (normalizeListPage exListA).tags = List.map (fun t => t.title) [exTagX] ∧
    (normalizeListPage exListB).tags = [] ∧
    ∃ r, listPages (.ok exListing) 1 2 = .ok r ∧
      r.pages = (jsSlice exListing ((1 - 1) * 2)
        ((1 - 1) * 2 + 2)).map normalizeListPage :=
  ⟨(listPages_tags_extraction exListing 1 2 exListA [exTagX]).1 rfl,
   (listPages_tags_extraction exListing 1 2 exListB []).2.1 rfl,
   (listPages_tags_extraction exListing 1 2 exListA [exTagX]).2.2⟩

/-! ## Startup behaviour (C9) -/

/-- C9: if `WIKI_JS_API_KEY` (or `WIKI_JS_BASE_URL`) is absent at startup,
the `WikiService` constructor throws, the process exits with code 1, and no
tool is ever registered. -/
theorem startup_missing_env_exits (baseUrl apiKey : Option String) :
    startup baseUrl none = .exited 1 ∧
    startup none apiKey = .exited 1 ∧
    startup baseUrl (some "") = .exited 1 ∧
    ∀ tools, startup baseUrl none ≠ .serving tools := by
  have hb : ∀ k : Option String, jsTruthy k = false → startup baseUrl k = .exited 1 := by
    intro k hk
    cases baseUrl with
    | none => rfl
    | some s =>
      by_cases he : s = ""
      · subst he
        rfl
      · have hts : jsTruthy (some s) = true := by simp [jsTruthy, he]
        simp [startup, wikiServiceCtor, hts, hk]
  refine ⟨hb none rfl, rfl, hb (some "") rfl, ?_⟩
  intro tools h
  rw [hb none rfl] at h
  simp at h

/-- Instantiation of `startup_missing_env_exits` at a concrete base URL and
key. -/
theorem startup_missing_env_exits_witness :
    startup (some "http://w") none = .exited 1 ∧
    startup none (some "k") = .exited 1 ∧
    startup (some "http://w") (some "") = .exited 1 ∧
    startup (some "http://w") none ≠ .serving registeredTools := by
  have h := startup_missing_env_exits (some "http://w") (some "k")
  exact ⟨h.1, h.2.1, h.2.2.1, h.2.2.2 registeredTools⟩

end AvrDocs
